import Mathlib

/-!
Verification of the LoRa audio-transfer protocol of the LoRa-Research
repository: the packet codec and checksums (packet.h, loraProtocol.cpp),
the V2 receiver reassembly state machine (LoRa-32-V2.ino), and the V3
sender engine (LoraManager.cpp).  Bytes are modelled as natural numbers
below 256, buffers as lists of naturals, machine integers as naturals with
explicit reduction modulo 2^8 / 2^16 / 2^32 where the C code truncates.
-/

namespace LoRa

/-! ### Protocol constants (packet.h) -/

def LORA_PROTOCOL_VERSION : Nat := 1
def CODEC_RAW_PCM : Nat := 0x00
def LORA_MAX_PAYLOAD : Nat := 255
def LORA_HEADER_SIZE : Nat := 10
def LORA_MAX_DATA_PAYLOAD : Nat := LORA_MAX_PAYLOAD - LORA_HEADER_SIZE

def PKT_AUDIO_START : Nat := 0x01
def PKT_AUDIO_DATA : Nat := 0x02
def PKT_AUDIO_END : Nat := 0x03
def PKT_ACK : Nat := 0x04

def ACK_STATUS_OK : Nat := 0x00
def ACK_STATUS_CRC_ERR : Nat := 0x01
def ACK_STATUS_MISSING : Nat := 0x02

/-- Receiver-side capacity (LoRa-32-V2.ino): `#define MAX_FRAGS 22`. -/
def MAX_FRAGS : Nat := 22

/-- `#define MAX_AUDIO_BYTES (MAX_FRAGS * LORA_MAX_DATA_PAYLOAD)` = 5390. -/
def MAX_AUDIO_BYTES : Nat := MAX_FRAGS * LORA_MAX_DATA_PAYLOAD

/-- Receiver node id (LoRa-32-V2.ino): `#define MY_NODE_ID 0x02`. -/
def MY_NODE_ID : Nat := 0x02

/-! ### Nibble helpers (packet.h) -/

def makeVerType (version ty : Nat) : Nat :=
  ((version &&& 0x0F) <<< 4) ||| (ty &&& 0x0F)

def getVersion (ver_type : Nat) : Nat := (ver_type >>> 4) &&& 0x0F

def getType (ver_type : Nat) : Nat := ver_type &&& 0x0F

def makeSFCR (sf cr : Nat) : Nat := ((sf &&& 0x0F) <<< 4) ||| (cr &&& 0x0F)

def getSF (sf_cr : Nat) : Nat := (sf_cr >>> 4) &&& 0x0F

def getCodingRate (sf_cr : Nat) : Nat := sf_cr &&& 0x0F

/-! ### CRC functions (loraProtocol.cpp)

`crc16`: polynomial 0x1021, initial value 0xFFFF, no final XOR, state kept
in a `uint16_t` (hence the reductions modulo 65536).  `crc32`: reflected
polynomial 0xEDB88320, initial value 0xFFFFFFFF, final complement, state
kept in a `uint32_t`. -/

/-- Apply a function eight times: the inner `for (j = 0; j < 8; j++)` loop. -/
def iter8 (f : Nat → Nat) (x : Nat) : Nat := f (f (f (f (f (f (f (f x)))))))

/-- One bit round of `crc16`:
`crc = (crc & 0x8000) ? (crc << 1) ^ 0x1021 : (crc << 1)` on a `uint16_t`. -/
def crc16Round (crc : Nat) : Nat :=
  if crc &&& 0x8000 ≠ 0 then ((crc <<< 1) ^^^ 0x1021) % 65536
  else (crc <<< 1) % 65536

def crc16 (data : List Nat) : Nat :=
  data.foldl (fun crc b => iter8 crc16Round ((crc ^^^ ((b % 256) <<< 8)) % 65536)) 0xFFFF

/-- One bit round of `crc32`:
`crc = (crc & 1) ? (crc >> 1) ^ 0xEDB88320 : (crc >> 1)`. -/
def crc32Round (crc : Nat) : Nat :=
  if crc &&& 1 ≠ 0 then (crc >>> 1) ^^^ 0xEDB88320
  else crc >>> 1

/-- `uint32_t crc32(const uint8_t* data, size_t len)`: the trailing
`~crc` is the complement inside 32 bits, i.e. XOR with 0xFFFFFFFF. -/
def crc32 (data : List Nat) : Nat :=
  0xFFFFFFFF ^^^ data.foldl (fun crc b => iter8 crc32Round (crc ^^^ (b % 256))) 0xFFFFFFFF

/-! ### Packed structs (packet.h) -/

structure LoRaHeader where
  ver_type : Nat
  src_id : Nat
  dst_id : Nat
  exp_id : Nat
  session_id : Nat
  seq_num : Nat
  tx_pow : Nat
  sf_cr : Nat
deriving Repr, DecidableEq

structure AudioStartPayload where
  total_frags : Nat
  codec_id : Nat
  sample_hz : Nat
  duration_ms : Nat
  total_size : Nat
  crc16 : Nat
deriving Repr, DecidableEq

structure AudioEndPayload where
  frag_count : Nat
  crc32 : Nat
  reserved : Nat
deriving Repr, DecidableEq

structure AckPayload where
  ack_seq : Nat
  status : Nat
deriving Repr, DecidableEq

/-- `buildHeader` (loraProtocol.cpp). -/
def buildHeader (ty src dst exp_id session seq tx_pow sf cr : Nat) : LoRaHeader :=
  { ver_type := makeVerType LORA_PROTOCOL_VERSION ty
    src_id := src
    dst_id := dst
    exp_id := exp_id
    session_id := session
    seq_num := seq
    tx_pow := tx_pow
    sf_cr := makeSFCR sf cr }

/-! ### Serialization (loraProtocol.cpp)

The C code serializes by `memcpy` of the `#pragma pack(1)` structs on a
little-endian CPU; the byte layout below is that packed little-endian
layout.  Reading a byte from a `uint8_t*` buffer is `rd8`; positions past
the end of the list stand for unspecified memory and read as 0. -/

def rd8 (b : List Nat) (i : Nat) : Nat := b.getD i 0 % 256

def rd16 (b : List Nat) (i : Nat) : Nat := rd8 b i + 256 * rd8 b (i + 1)

def rd32 (b : List Nat) (i : Nat) : Nat :=
  rd8 b i + 256 * rd8 b (i + 1) + 65536 * rd8 b (i + 2) + 16777216 * rd8 b (i + 3)

/-- `serializeHeader`: `memcpy(buf, hdr, LORA_HEADER_SIZE)` — 10 bytes. -/
def serializeHeader (h : LoRaHeader) : List Nat :=
  [h.ver_type % 256, h.src_id % 256, h.dst_id % 256, h.exp_id % 256,
   h.session_id % 256, h.session_id / 256 % 256,
   h.seq_num % 256, h.seq_num / 256 % 256,
   h.tx_pow % 256, h.sf_cr % 256]

/-- `deserializeHeader`: `memcpy(hdr, buf, LORA_HEADER_SIZE)`. -/
def deserializeHeader (b : List Nat) : LoRaHeader :=
  { ver_type := rd8 b 0, src_id := rd8 b 1, dst_id := rd8 b 2, exp_id := rd8 b 3,
    session_id := rd16 b 4, seq_num := rd16 b 6, tx_pow := rd8 b 8, sf_cr := rd8 b 9 }

/-- `serializeAudioStart`: `memcpy` of the 13-byte packed struct. -/
def serializeAudioStart (sp : AudioStartPayload) : List Nat :=
  [sp.total_frags % 256, sp.total_frags / 256 % 256,
   sp.codec_id % 256,
   sp.sample_hz % 256, sp.sample_hz / 256 % 256,
   sp.duration_ms % 256, sp.duration_ms / 256 % 256,
   sp.total_size % 256, sp.total_size / 256 % 256,
   sp.total_size / 65536 % 256, sp.total_size / 16777216 % 256,
   sp.crc16 % 256, sp.crc16 / 256 % 256]

def deserializeAudioStart (b : List Nat) : AudioStartPayload :=
  { total_frags := rd16 b 0, codec_id := rd8 b 2, sample_hz := rd16 b 3,
    duration_ms := rd16 b 5, total_size := rd32 b 7, crc16 := rd16 b 11 }

/-- `serializeAudioEnd`: `memcpy` of the 7-byte packed struct. -/
def serializeAudioEnd (ep : AudioEndPayload) : List Nat :=
  [ep.frag_count % 256, ep.frag_count / 256 % 256,
   ep.crc32 % 256, ep.crc32 / 256 % 256,
   ep.crc32 / 65536 % 256, ep.crc32 / 16777216 % 256,
   ep.reserved % 256]

def deserializeAudioEnd (b : List Nat) : AudioEndPayload :=
  { frag_count := rd16 b 0, crc32 := rd32 b 2, reserved := rd8 b 6 }

/-- The 3-byte ack layout written by `sendAck` in LoRa-32-V2.ino
(`memcpy(buf + LORA_HEADER_SIZE, &ack, sizeof(AckPayload))`). -/
def serializeAck (a : AckPayload) : List Nat :=
  [a.ack_seq % 256, a.ack_seq / 256 % 256, a.status % 256]

/-- The ack readback performed by `LoRaManager::waitForAck`
(`memcpy(&ack, buf + LORA_HEADER_SIZE, sizeof(AckPayload))`). -/
def deserializeAck (b : List Nat) : AckPayload :=
  { ack_seq := rd16 b 0, status := rd8 b 2 }

/-! ### Field-range predicates for the packed C integer types -/

abbrev headerFieldsValid (h : LoRaHeader) : Prop :=
  h.ver_type < 256 ∧ h.src_id < 256 ∧ h.dst_id < 256 ∧ h.exp_id < 256 ∧
  h.session_id < 65536 ∧ h.seq_num < 65536 ∧ h.tx_pow < 256 ∧ h.sf_cr < 256

abbrev startFieldsValid (sp : AudioStartPayload) : Prop :=
  sp.total_frags < 65536 ∧ sp.codec_id < 256 ∧ sp.sample_hz < 65536 ∧
  sp.duration_ms < 65536 ∧ sp.total_size < 4294967296 ∧ sp.crc16 < 65536

abbrev endFieldsValid (ep : AudioEndPayload) : Prop :=
  ep.frag_count < 65536 ∧ ep.crc32 < 4294967296 ∧ ep.reserved < 256

abbrev ackFieldsValid (a : AckPayload) : Prop :=
  a.ack_seq < 65536 ∧ a.status < 256

/-! ### Receiver state machine (LoRa-32-V2.ino)

The receiver's global session variables become one record; handlers
return the updated record together with the list of observable actions
(acknowledgment transmissions by `sendAck` and the hand-off to the audio
sink `onAudioReceived`). -/

inductive RxState where
  | IDLE : RxState
  | RECEIVING : RxState
deriving Repr, DecidableEq

inductive RxOutput where
  | ack (seq status : Nat) : RxOutput
  | audio (bytes : List Nat) (codec sample_hz duration_ms : Nat) : RxOutput
deriving Repr, DecidableEq

structure RxSession where
  state : RxState
  session_id : Nat
  total_frags : Nat
  frags_rx : Nat
  audio_len : Nat
  codec_id : Nat
  sample_hz : Nat
  duration_ms : Nat
  total_size : Nat
  frag_received : List Bool
  audio_buf : List Nat
deriving Repr, DecidableEq

/-- The zero-initialized globals of LoRa-32-V2.ino. -/
def initSession : RxSession :=
  { state := .IDLE, session_id := 0, total_frags := 0, frags_rx := 0,
    audio_len := 0, codec_id := 0, sample_hz := 0, duration_ms := 0,
    total_size := 0, frag_received := List.replicate MAX_FRAGS false,
    audio_buf := List.replicate MAX_AUDIO_BYTES 0 }

/-- `memcpy(g_audio_buf + offset, payload_buf, payload_len)`. -/
def writeBytes (buf : List Nat) (off : Nat) (src : List Nat) : List Nat :=
  buf.take off ++ src ++ buf.drop (off + src.length)

/-- `handleAudioStart`.  The checksum is recomputed over the first 11
bytes of the deserialized struct's memory, exactly as
`crc16((const uint8_t*)&sp, sizeof(AudioStartPayload) - sizeof(uint16_t))`. -/
def handleAudioStart (s : RxSession) (hdr : LoRaHeader) (payload : List Nat) :
    RxSession × List RxOutput :=
  if payload.length < 13 then (s, [])
  else
    let sp := deserializeAudioStart payload
    let computed := crc16 ((serializeAudioStart sp).take 11)
    if computed ≠ sp.crc16 then
      (s, [.ack hdr.seq_num ACK_STATUS_CRC_ERR])
    else if MAX_FRAGS < sp.total_frags then
      (s, [.ack hdr.seq_num ACK_STATUS_MISSING])
    else
      ({ state := .RECEIVING, session_id := hdr.session_id,
         total_frags := sp.total_frags, frags_rx := 0, audio_len := 0,
         codec_id := sp.codec_id, sample_hz := sp.sample_hz,
         duration_ms := sp.duration_ms, total_size := sp.total_size,
         frag_received := List.replicate MAX_FRAGS false,
         audio_buf := List.replicate MAX_AUDIO_BYTES 0 },
       [.ack hdr.seq_num ACK_STATUS_OK])

/-- `handleAudioData`.  Fragments are indexed by arrival order
(`frag_index = g_frags_rx`), not by sequence number. -/
def handleAudioData (s : RxSession) (hdr : LoRaHeader) (payload : List Nat) :
    RxSession × List RxOutput :=
  if s.state ≠ .RECEIVING then (s, [])
  else
    let frag_index := s.frags_rx
    if MAX_FRAGS ≤ frag_index then (s, [])
    else
      let off := frag_index * LORA_MAX_DATA_PAYLOAD
      if MAX_AUDIO_BYTES < off + payload.length then (s, [])
      else
        ({ s with audio_buf := writeBytes s.audio_buf off payload,
                  frag_received := s.frag_received.set frag_index true,
                  audio_len := s.audio_len + payload.length,
                  frags_rx := s.frags_rx + 1 },
         [.ack hdr.seq_num ACK_STATUS_OK])

/-- The missing-fragment scan of `handleAudioEnd`:
`for (i = 0; i < g_total_frags; i++) if (!g_frag_received[i]) missing++`. -/
def countMissing (markers : List Bool) (tf : Nat) : Nat :=
  ((List.range tf).filter (fun i => !(markers.getD i false))).length

/-- `handleAudioEnd`.  Note that it never consults `g_state`. -/
def handleAudioEnd (s : RxSession) (hdr : LoRaHeader) (payload : List Nat) :
    RxSession × List RxOutput :=
  if payload.length < 7 then (s, [])
  else
    let ep := deserializeAudioEnd payload
    let missing := countMissing s.frag_received s.total_frags
    if 0 < missing then
      ({ s with state := .IDLE }, [.ack hdr.seq_num ACK_STATUS_MISSING])
    else
      let computed := crc32 (s.audio_buf.take s.audio_len)
      if computed ≠ ep.crc32 then
        ({ s with state := .IDLE }, [.ack hdr.seq_num ACK_STATUS_CRC_ERR])
      else
        ({ s with state := .IDLE },
         [.ack hdr.seq_num ACK_STATUS_OK,
          .audio (s.audio_buf.take s.audio_len) s.codec_id s.sample_hz s.duration_ms])

/-- `receivePacket` after a successful radio receive of one frame:
length check, header deserialization, destination filter and dispatch on
the packet type nibble. -/
def processFrame (s : RxSession) (frame : List Nat) : RxSession × List RxOutput :=
  if frame.length < LORA_HEADER_SIZE then (s, [])
  else
    let hdr := deserializeHeader frame
    if hdr.dst_id ≠ MY_NODE_ID then (s, [])
    else
      let payload := frame.drop LORA_HEADER_SIZE
      if getType hdr.ver_type = PKT_AUDIO_START then handleAudioStart s hdr payload
      else if getType hdr.ver_type = PKT_AUDIO_DATA then handleAudioData s hdr payload
      else if getType hdr.ver_type = PKT_AUDIO_END then handleAudioEnd s hdr payload
      else (s, [])

/-- The receiver polling loop (`loop`/`receivePacket`) over a list of
arriving frames, collecting all observable actions. -/
def runFrames (s : RxSession) : List (List Nat) → RxSession × List RxOutput
  | [] => (s, [])
  | f :: fs =>
    let r1 := processFrame s f
    let r2 := runFrames r1.1 fs
    (r2.1, r1.2 ++ r2.2)

/-! ### Sender engine (LoRa-32-V3, LoraManager.cpp)

The radio is an external collaborator: the outcome of `_radio.transmit`
and the data returned by `_radio.receive` are inputs of the embedded
functions.  Each function returns what it hands to the radio (the list of
transmitted frames) next to its C return value and the updated member
state. -/

namespace LoRaManager

def TX_SF : Nat := 7
def TX_CR : Nat := 5
def TX_POWER_DBM : Nat := 14
def MY_NODE_ID : Nat := 0x01
def PEER_NODE_ID : Nat := 0x02
def EXPERIMENT_ID : Nat := 0x01

/-- The private members `_session_id` and `_seq_num` (both `uint16_t`). -/
structure TxState where
  session_id : Nat
  seq_num : Nat
deriving Repr, DecidableEq

/-- `LoRaManager::_fillHeader`: builds the header and post-increments the
`uint16_t` sequence counter. -/
def fillHeader (st : TxState) (ty : Nat) : LoRaHeader × TxState :=
  (buildHeader ty MY_NODE_ID PEER_NODE_ID EXPERIMENT_ID
     st.session_id st.seq_num TX_POWER_DBM TX_SF TX_CR,
   { st with seq_num := (st.seq_num + 1) % 65536 })

/-- `LoRaManager::sendAudioData(const uint8_t* data, uint8_t len)`.
`txOk` is the radio's report for the one `transmit` call; the middle
component lists the frames actually handed to the radio. -/
def sendAudioData (st : TxState) (data : List Nat) (len : Nat) (txOk : Bool) :
    Bool × List (List Nat) × TxState :=
  if LORA_MAX_DATA_PAYLOAD < len then (false, [], st)
  else
    let r := fillHeader st PKT_AUDIO_DATA
    let frame := serializeHeader r.1 ++ data.take len
    (txOk, [frame], r.2)

/-- `LoRaManager::waitForAck(uint16_t expected_seq, uint32_t timeout_ms)`.
The body calls `_radio.receive(buf, sizeof(buf))` with the radio's own
default timeout; `rx_err`, `buf` and `pkt_len` model that call's outcome
(`RADIOLIB_ERR_NONE = 0`). -/
def waitForAck (expected_seq timeout_ms : Nat) (rx_err : Int) (buf : List Nat)
    (pkt_len : Nat) : Bool :=
  if rx_err ≠ 0 then false
  else if pkt_len < LORA_HEADER_SIZE + 3 then false
  else
    let hdr := deserializeHeader buf
    if getType hdr.ver_type ≠ PKT_ACK then false
    else
      let ack := deserializeAck (buf.drop LORA_HEADER_SIZE)
      if ack.ack_seq ≠ expected_seq then false
      else if ack.status ≠ ACK_STATUS_OK then false
      else true

end LoRaManager

/-! ### Witness fixtures -/

/-- The receiving session used to witness C4: two fragments announced,
one accepted. -/
def rxOneOfTwo : RxSession :=
  { initSession with
      state := RxState.RECEIVING
      total_frags := 2
      frag_received := List.replicate 1 true ++ List.replicate 21 false }

/-- The receiving session used to witness C9: one fragment announced and
already received, the byte count at one full fragment. -/
def rxFullOne : RxSession :=
  { initSession with
      state := RxState.RECEIVING
      total_frags := 1
      frags_rx := 1
      audio_len := 245 }

/-- The receiving session used to witness C9 at full capacity. -/
def rxAtCapacity : RxSession :=
  { initSession with
      state := RxState.RECEIVING
      frags_rx := 22 }

/-! ### Fragmentation model and frame builders

The sender walks the payload in `LORA_MAX_DATA_PAYLOAD`-byte steps
(`ceil(total_size / max_fragment_payload)` fragments, full-sized except
the last); the builders below produce the on-wire frames of one transfer
for arbitrary headers addressed to the receiver. -/

/-- `ceil(n / 245)`: the announced fragment count for `n` payload bytes. -/
def numFrags (n : Nat) : Nat :=
  (n + (LORA_MAX_DATA_PAYLOAD - 1)) / LORA_MAX_DATA_PAYLOAD

/-- Split a payload into consecutive fragments of at most
`LORA_MAX_DATA_PAYLOAD` bytes, full-sized except possibly the last. -/
def fragments (p : List Nat) : List (List Nat) :=
  if h : p = [] then []
  else p.take LORA_MAX_DATA_PAYLOAD :: fragments (p.drop LORA_MAX_DATA_PAYLOAD)
termination_by p.length
decreasing_by
  simp only [List.length_drop, LORA_MAX_DATA_PAYLOAD, LORA_MAX_PAYLOAD,
    LORA_HEADER_SIZE]
  have hp : 0 < p.length := List.length_pos.2 h
  omega

/-- A frame header the V2 receiver accepts as packet type `t`: a byte
`ver_type` whose low nibble is `t`, destination this node, and a 16-bit
sequence number. -/
abbrev goodHeader (h : LoRaHeader) (t : Nat) : Prop :=
  h.ver_type < 256 ∧ h.dst_id = MY_NODE_ID ∧ h.ver_type &&& 0x0F = t ∧
  h.seq_num < 65536

/-- The receiver session in mid-reassembly: `k` fragments accepted in
arrival order, their `done` bytes contiguous at the front of the buffer. -/
def midSession (sid tf cdc hz dur ts k : Nat) (done : List Nat) : RxSession :=
  { state := RxState.RECEIVING, session_id := sid, total_frags := tf,
    frags_rx := k, audio_len := done.length, codec_id := cdc, sample_hz := hz,
    duration_ms := dur, total_size := ts,
    frag_received := List.replicate k true ++ List.replicate (MAX_FRAGS - k) false,
    audio_buf := done ++ List.replicate (MAX_AUDIO_BYTES - done.length) 0 }

/-- An AUDIO_START frame announcing `nf` fragments and the transfer
metadata, with a correct crc16 over the first 11 payload bytes. -/
def mkStartFrame (h : LoRaHeader) (nf cdc hz dur ts : Nat) : List Nat :=
  serializeHeader h ++
    serializeAudioStart ⟨nf, cdc, hz, dur, ts,
      crc16 ((serializeAudioStart ⟨nf, cdc, hz, dur, ts, 0⟩).take 11)⟩

/-- An AUDIO_DATA frame carrying one raw fragment. -/
def mkDataFrame (h : LoRaHeader) (frag : List Nat) : List Nat :=
  serializeHeader h ++ frag

/-- An AUDIO_END frame carrying the fragment count and payload CRC32. -/
def mkEndFrame (h : LoRaHeader) (nf c32 : Nat) : List Nat :=
  serializeHeader h ++ serializeAudioEnd ⟨nf, c32, 0⟩

/-! ### Normal forms of deserialize-after-serialize -/

theorem deserializeHeader_serializeHeader_append (h : LoRaHeader) (r : List Nat) :
    deserializeHeader (serializeHeader h ++ r) =
      { ver_type := h.ver_type % 256, src_id := h.src_id % 256,
        dst_id := h.dst_id % 256, exp_id := h.exp_id % 256,
        session_id := h.session_id % 65536, seq_num := h.seq_num % 65536,
        tx_pow := h.tx_pow % 256, sf_cr := h.sf_cr % 256 } := by
  have e : deserializeHeader (serializeHeader h ++ r) =
      { ver_type := h.ver_type % 256 % 256,
        src_id := h.src_id % 256 % 256,
        dst_id := h.dst_id % 256 % 256,
        exp_id := h.exp_id % 256 % 256,
        session_id := h.session_id % 256 % 256 +
          256 * (h.session_id / 256 % 256 % 256),
        seq_num := h.seq_num % 256 % 256 +
          256 * (h.seq_num / 256 % 256 % 256),
        tx_pow := h.tx_pow % 256 % 256,
        sf_cr := h.sf_cr % 256 % 256 } := rfl
  rw [e]
  simp only [LoRaHeader.mk.injEq]
  refine ⟨?_, ?_, ?_, ?_, ?_, ?_, ?_, ?_⟩ <;> omega

theorem deserializeHeader_serializeHeader (h : LoRaHeader)
    (hv : headerFieldsValid h) :
    deserializeHeader (serializeHeader h) = h := by
  have e : serializeHeader h ++ [] = serializeHeader h := by simp
  obtain ⟨h1, h2, h3, h4, h5, h6, h7, h8⟩ := hv
  have := deserializeHeader_serializeHeader_append h []
  rw [e] at this
  rw [this]
  cases h with
  | mk v0 v1 v2 v3 v4 v5 v6 v7 =>
    simp only [LoRaHeader.mk.injEq] at *
    refine ⟨?_, ?_, ?_, ?_, ?_, ?_, ?_, ?_⟩ <;> omega

theorem deserializeAudioStart_serializeAudioStart_append (sp : AudioStartPayload)
    (r : List Nat) :
    deserializeAudioStart (serializeAudioStart sp ++ r) =
      { total_frags := sp.total_frags % 65536, codec_id := sp.codec_id % 256,
        sample_hz := sp.sample_hz % 65536, duration_ms := sp.duration_ms % 65536,
        total_size := sp.total_size % 4294967296, crc16 := sp.crc16 % 65536 } := by
  have e : deserializeAudioStart (serializeAudioStart sp ++ r) =
      { total_frags := sp.total_frags % 256 % 256 +
          256 * (sp.total_frags / 256 % 256 % 256),
        codec_id := sp.codec_id % 256 % 256,
        sample_hz := sp.sample_hz % 256 % 256 +
          256 * (sp.sample_hz / 256 % 256 % 256),
        duration_ms := sp.duration_ms % 256 % 256 +
          256 * (sp.duration_ms / 256 % 256 % 256),
        total_size := sp.total_size % 256 % 256 +
          256 * (sp.total_size / 256 % 256 % 256) +
          65536 * (sp.total_size / 65536 % 256 % 256) +
          16777216 * (sp.total_size / 16777216 % 256 % 256),
        crc16 := sp.crc16 % 256 % 256 +
          256 * (sp.crc16 / 256 % 256 % 256) } := rfl
  rw [e]
  simp only [AudioStartPayload.mk.injEq]
  refine ⟨?_, ?_, ?_, ?_, ?_, ?_⟩ <;> omega

theorem deserializeAudioStart_serializeAudioStart (sp : AudioStartPayload)
    (hv : startFieldsValid sp) :
    deserializeAudioStart (serializeAudioStart sp) = sp := by
  have e : serializeAudioStart sp ++ [] = serializeAudioStart sp := by simp
  obtain ⟨h1, h2, h3, h4, h5, h6⟩ := hv
  have := deserializeAudioStart_serializeAudioStart_append sp []
  rw [e] at this
  rw [this]
  cases sp with
  | mk v0 v1 v2 v3 v4 v5 =>
    simp only [AudioStartPayload.mk.injEq] at *
    refine ⟨?_, ?_, ?_, ?_, ?_, ?_⟩ <;> omega

theorem deserializeAudioEnd_serializeAudioEnd_append (ep : AudioEndPayload)
    (r : List Nat) :
    deserializeAudioEnd (serializeAudioEnd ep ++ r) =
      { frag_count := ep.frag_count % 65536, crc32 := ep.crc32 % 4294967296,
        reserved := ep.reserved % 256 } := by
  have e : deserializeAudioEnd (serializeAudioEnd ep ++ r) =
      { frag_count := ep.frag_count % 256 % 256 +
          256 * (ep.frag_count / 256 % 256 % 256),
        crc32 := ep.crc32 % 256 % 256 +
          256 * (ep.crc32 / 256 % 256 % 256) +
          65536 * (ep.crc32 / 65536 % 256 % 256) +
          16777216 * (ep.crc32 / 16777216 % 256 % 256),
        reserved := ep.reserved % 256 % 256 } := rfl
  rw [e]
  simp only [AudioEndPayload.mk.injEq]
  refine ⟨?_, ?_, ?_⟩ <;> omega

theorem deserializeAudioEnd_serializeAudioEnd (ep : AudioEndPayload)
    (hv : endFieldsValid ep) :
    deserializeAudioEnd (serializeAudioEnd ep) = ep := by
  have e : serializeAudioEnd ep ++ [] = serializeAudioEnd ep := by simp
  obtain ⟨h1, h2, h3⟩ := hv
  have := deserializeAudioEnd_serializeAudioEnd_append ep []
  rw [e] at this
  rw [this]
  cases ep with
  | mk v0 v1 v2 =>
    simp only [AudioEndPayload.mk.injEq] at *
    refine ⟨?_, ?_, ?_⟩ <;> omega

theorem deserializeAck_serializeAck (a : AckPayload) (hv : ackFieldsValid a) :
    deserializeAck (serializeAck a) = a := by
  have e : deserializeAck (serializeAck a) =
      { ack_seq := a.ack_seq % 256 % 256 +
          256 * (a.ack_seq / 256 % 256 % 256),
        status := a.status % 256 % 256 } := rfl
  obtain ⟨h1, h2⟩ := hv
  rw [e]
  cases a with
  | mk v0 v1 =>
    simp only [AckPayload.mk.injEq] at *
    refine ⟨?_, ?_⟩ <;> omega

theorem length_serializeHeader (h : LoRaHeader) : (serializeHeader h).length = 10 := rfl

theorem length_serializeAudioStart (sp : AudioStartPayload) :
    (serializeAudioStart sp).length = 13 := rfl

theorem length_serializeAudioEnd (ep : AudioEndPayload) :
    (serializeAudioEnd ep).length = 7 := rfl

theorem length_serializeAck (a : AckPayload) : (serializeAck a).length = 3 := rfl


/-! ### Generic byte and list facts used by several claims -/

theorem rd8_lt (b : List Nat) (i : Nat) : rd8 b i < 256 :=
  Nat.mod_lt _ (by omega)

theorem getD_take_lt (b : List Nat) (n i : Nat) (d : Nat) (h : i < n) :
    (b.take n).getD i d = b.getD i d := by
  induction b generalizing n i with
  | nil => simp
  | cons x xs ih =>
    cases n with
    | zero => omega
    | succ m =>
      cases i with
      | zero => simp
      | succ j => simpa using ih m j (by omega)

/-- The struct memory produced by deserializing then reserializing an
AudioStart payload is the byte readback of the first 13 buffer positions. -/
theorem serializeAudioStart_deserializeAudioStart (p : List Nat) :
    serializeAudioStart (deserializeAudioStart p) =
      [rd8 p 0, rd8 p 1, rd8 p 2, rd8 p 3, rd8 p 4, rd8 p 5, rd8 p 6,
       rd8 p 7, rd8 p 8, rd8 p 9, rd8 p 10, rd8 p 11, rd8 p 12] := by
  have h0 := rd8_lt p 0
  have h1 := rd8_lt p 1
  have h2 := rd8_lt p 2
  have h3 := rd8_lt p 3
  have h4 := rd8_lt p 4
  have h5 := rd8_lt p 5
  have h6 := rd8_lt p 6
  have h7 := rd8_lt p 7
  have h8 := rd8_lt p 8
  have h9 := rd8_lt p 9
  have h10 := rd8_lt p 10
  have h11 := rd8_lt p 11
  have h12 := rd8_lt p 12
  simp only [serializeAudioStart, deserializeAudioStart, rd16, rd32, List.cons.injEq,
    and_true]
  norm_num
  refine ⟨?_, ?_, ?_, ?_, ?_, ?_, ?_, ?_, ?_, ?_, ?_, ?_, ?_⟩ <;> omega

/-- A byte buffer of at least 11 valid bytes agrees with its `rd8`
readbacks on the first 11 positions. -/
theorem take11_of_bytes (p : List Nat) (hl : 11 ≤ p.length)
    (hb : ∀ b ∈ p, b < 256) :
    p.take 11 = [rd8 p 0, rd8 p 1, rd8 p 2, rd8 p 3, rd8 p 4, rd8 p 5,
                 rd8 p 6, rd8 p 7, rd8 p 8, rd8 p 9, rd8 p 10] := by
  obtain - | ⟨b0, p⟩ := p; · simp at hl
  obtain - | ⟨b1, p⟩ := p; · simp at hl
  obtain - | ⟨b2, p⟩ := p; · simp at hl
  obtain - | ⟨b3, p⟩ := p; · simp at hl
  obtain - | ⟨b4, p⟩ := p; · simp at hl
  obtain - | ⟨b5, p⟩ := p; · simp at hl
  obtain - | ⟨b6, p⟩ := p; · simp at hl
  obtain - | ⟨b7, p⟩ := p; · simp at hl
  obtain - | ⟨b8, p⟩ := p; · simp at hl
  obtain - | ⟨b9, p⟩ := p; · simp at hl
  obtain - | ⟨b10, p⟩ := p; · simp at hl
  have g0 : b0 < 256 := hb b0 (by simp)
  have g1 : b1 < 256 := hb b1 (by simp)
  have g2 : b2 < 256 := hb b2 (by simp)
  have g3 : b3 < 256 := hb b3 (by simp)
  have g4 : b4 < 256 := hb b4 (by simp)
  have g5 : b5 < 256 := hb b5 (by simp)
  have g6 : b6 < 256 := hb b6 (by simp)
  have g7 : b7 < 256 := hb b7 (by simp)
  have g8 : b8 < 256 := hb b8 (by simp)
  have g9 : b9 < 256 := hb b9 (by simp)
  have g10 : b10 < 256 := hb b10 (by simp)
  simp only [rd8, List.getD_cons_zero, List.getD_cons_succ]
  norm_num
  refine ⟨?_, ?_, ?_, ?_, ?_, ?_, ?_, ?_, ?_, ?_, ?_⟩ <;> omega

set_option maxRecDepth 8000

/-! ### Claim C5 — checksum algorithms and reference vectors -/

/-- C5: `crc16` and `crc32` are pure functions of the byte sequence with
the stated parameters.  The standard check value 0x29B1 of
CRC-16/CCITT-FALSE pins polynomial 0x1021, initial value 0xFFFF and the
absence of a final XOR (the empty input therefore yields the bare initial
value 0xFFFF); the check value 0xCBF43926 of CRC-32 pins the reflected
polynomial 0xEDB88320, initial value 0xFFFFFFFF and the final complement,
which sends the empty input to 0x00000000. -/
theorem C5_crc_reference_values :
    crc32 [49, 50, 51, 52, 53, 54, 55, 56, 57] = 0xCBF43926 ∧
    crc32 [] = 0x00000000 ∧
    crc16 [49, 50, 51, 52, 53, 54, 55, 56, 57] = 0x29B1 ∧
    crc16 [] = 0xFFFF := by
  refine ⟨by decide, by decide, by decide, by decide⟩

/-! ### Claim C6 — serialize/deserialize round trips -/

/-- C6: deserialization is a left inverse of serialization for every
Header, AudioStart, AudioEnd and Ack value whose fields fit the packed C
integer types, and the wire forms have the fixed sizes 10, 13, 7 and 3. -/
theorem C6_roundtrip :
    (∀ h : LoRaHeader, headerFieldsValid h →
       deserializeHeader (serializeHeader h) = h) ∧
    (∀ h : LoRaHeader, (serializeHeader h).length = 10) ∧
    (∀ sp : AudioStartPayload, startFieldsValid sp →
       deserializeAudioStart (serializeAudioStart sp) = sp) ∧
    (∀ sp : AudioStartPayload, (serializeAudioStart sp).length = 13) ∧
    (∀ ep : AudioEndPayload, endFieldsValid ep →
       deserializeAudioEnd (serializeAudioEnd ep) = ep) ∧
    (∀ ep : AudioEndPayload, (serializeAudioEnd ep).length = 7) ∧
    (∀ a : AckPayload, ackFieldsValid a → deserializeAck (serializeAck a) = a) ∧
    (∀ a : AckPayload, (serializeAck a).length = 3) :=
  ⟨deserializeHeader_serializeHeader, length_serializeHeader,
   deserializeAudioStart_serializeAudioStart, length_serializeAudioStart,
   deserializeAudioEnd_serializeAudioEnd, length_serializeAudioEnd,
   deserializeAck_serializeAck, length_serializeAck⟩

/-- Witness for C6 at concrete packet values. -/
theorem C6_roundtrip_witness :
    headerFieldsValid ⟨0x11, 1, 2, 1, 0x1234, 7, 14, 0x75⟩ ∧
    deserializeHeader (serializeHeader ⟨0x11, 1, 2, 1, 0x1234, 7, 14, 0x75⟩) =
      ⟨0x11, 1, 2, 1, 0x1234, 7, 14, 0x75⟩ ∧
    startFieldsValid ⟨3, 0, 8000, 64, 512, 0xABCD⟩ ∧
    deserializeAudioStart (serializeAudioStart ⟨3, 0, 8000, 64, 512, 0xABCD⟩) =
      ⟨3, 0, 8000, 64, 512, 0xABCD⟩ ∧
    endFieldsValid ⟨3, 0xDEADBEEF, 0⟩ ∧
    deserializeAudioEnd (serializeAudioEnd ⟨3, 0xDEADBEEF, 0⟩) = ⟨3, 0xDEADBEEF, 0⟩ ∧
    ackFieldsValid ⟨5, 0⟩ ∧
    deserializeAck (serializeAck ⟨5, 0⟩) = ⟨5, 0⟩ :=
  ⟨by decide, C6_roundtrip.1 _ (by decide),
   by decide, C6_roundtrip.2.2.1 _ (by decide),
   by decide, C6_roundtrip.2.2.2.2.1 _ (by decide),
   by decide, C6_roundtrip.2.2.2.2.2.2.1 _ (by decide)⟩

/-! ### Claim C10 — waitForAck ignores its timeout argument -/

/-- C10: the result of `waitForAck` does not depend on `timeout_ms`: the
argument is never forwarded to the radio receive call, so for one fixed
channel outcome (`rx_err`, `buf`, `pkt_len`) any two timeout values give
the same result. -/
theorem C10_waitForAck_timeout_independent (expected_seq t1 t2 : Nat)
    (rx_err : Int) (buf : List Nat) (pkt_len : Nat) :
    LoRaManager.waitForAck expected_seq t1 rx_err buf pkt_len =
      LoRaManager.waitForAck expected_seq t2 rx_err buf pkt_len := rfl

/-! ### Claim C7 — sendAudioData framing -/

/-- C7: `sendAudioData` rejects lengths above `LORA_MAX_DATA_PAYLOAD`
(245) without transmitting anything, and otherwise hands the radio exactly
one frame of `LORA_HEADER_SIZE + len` bytes: the serialized AUDIO_DATA
header followed by the first `len` bytes of `data`, with no length field
and no unused buffer bytes. -/
theorem C7_sendAudioData_frame (st : LoRaManager.TxState) (data : List Nat)
    (len : Nat) (txOk : Bool) :
    (LORA_MAX_DATA_PAYLOAD < len →
       LoRaManager.sendAudioData st data len txOk = (false, [], st)) ∧
    (len ≤ LORA_MAX_DATA_PAYLOAD → len ≤ data.length →
       LoRaManager.sendAudioData st data len txOk =
         (txOk,
          [serializeHeader (buildHeader PKT_AUDIO_DATA LoRaManager.MY_NODE_ID
              LoRaManager.PEER_NODE_ID LoRaManager.EXPERIMENT_ID st.session_id
              st.seq_num LoRaManager.TX_POWER_DBM LoRaManager.TX_SF
              LoRaManager.TX_CR) ++ data.take len],
          { st with seq_num := (st.seq_num + 1) % 65536 }) ∧
       (serializeHeader (buildHeader PKT_AUDIO_DATA LoRaManager.MY_NODE_ID
           LoRaManager.PEER_NODE_ID LoRaManager.EXPERIMENT_ID st.session_id
           st.seq_num LoRaManager.TX_POWER_DBM LoRaManager.TX_SF
           LoRaManager.TX_CR) ++ data.take len).length = LORA_HEADER_SIZE + len) := by
  constructor
  · intro h
    simp only [LoRaManager.sendAudioData, if_pos h]
  · intro h1 h2
    refine ⟨?_, ?_⟩
    · simp only [LoRaManager.sendAudioData, LoRaManager.fillHeader, if_neg (not_lt.2 h1)]
    · simp only [List.length_append, length_serializeHeader, List.length_take,
        LORA_HEADER_SIZE]
      omega

/-- Witness for C7: a rejected oversize length and an accepted 3-byte
fragment. -/
theorem C7_sendAudioData_frame_witness :
    (LORA_MAX_DATA_PAYLOAD < 246 ∧
     LoRaManager.sendAudioData ⟨9, 4⟩ [1, 2, 3] 246 true = (false, [], ⟨9, 4⟩)) ∧
    ((3 ≤ LORA_MAX_DATA_PAYLOAD ∧ 3 ≤ ([1, 2, 3] : List Nat).length) ∧
     LoRaManager.sendAudioData ⟨9, 4⟩ [1, 2, 3] 3 true =
       (true,
        [serializeHeader (buildHeader PKT_AUDIO_DATA LoRaManager.MY_NODE_ID
            LoRaManager.PEER_NODE_ID LoRaManager.EXPERIMENT_ID 9 4
            LoRaManager.TX_POWER_DBM LoRaManager.TX_SF LoRaManager.TX_CR)
          ++ ([1, 2, 3] : List Nat).take 3],
        ⟨9, 5⟩) ∧
     (serializeHeader (buildHeader PKT_AUDIO_DATA LoRaManager.MY_NODE_ID
         LoRaManager.PEER_NODE_ID LoRaManager.EXPERIMENT_ID 9 4
         LoRaManager.TX_POWER_DBM LoRaManager.TX_SF LoRaManager.TX_CR)
       ++ ([1, 2, 3] : List Nat).take 3).length = LORA_HEADER_SIZE + 3) :=
  ⟨⟨by decide, (C7_sendAudioData_frame ⟨9, 4⟩ [1, 2, 3] 246 true).1 (by decide)⟩,
   ⟨⟨by decide, by decide⟩,
    (C7_sendAudioData_frame ⟨9, 4⟩ [1, 2, 3] 3 true).2 (by decide) (by decide)⟩⟩

/-! ### Claim C3 — deserialization of short buffers -/

/-- C3 counterexample: each deserializer returns an ordinary structure
value, never a decode error, even for buffers strictly shorter than the
fixed wire size (3, 1 and 0 bytes here); there is no error result in the
code at all. -/
theorem C3_counterexample :
    deserializeHeader [7, 7, 7] =
      { ver_type := 7, src_id := 7, dst_id := 7, exp_id := 0, session_id := 0,
        seq_num := 0, tx_pow := 0, sf_cr := 0 } ∧
    deserializeAudioStart [1] =
      { total_frags := 1, codec_id := 0, sample_hz := 0, duration_ms := 0,
        total_size := 0, crc16 := 0 } ∧
    deserializeAudioEnd [] = { frag_count := 0, crc32 := 0, reserved := 0 } :=
  ⟨rfl, rfl, rfl⟩

/-- C3 amended: the deserializers read only the fixed wire size (10, 13
and 7 bytes) of the buffer and never signal an error; the short-buffer
rejection the spec describes is performed by the callers, which drop
frames shorter than the header and payloads shorter than the fixed
payload sizes without any state change or acknowledgment. -/
theorem C3_deserialize_bounds (s : RxSession) (hdr : LoRaHeader)
    (f p q b : List Nat) :
    (deserializeHeader b = deserializeHeader (b.take 10)) ∧
    (deserializeAudioStart b = deserializeAudioStart (b.take 13)) ∧
    (deserializeAudioEnd b = deserializeAudioEnd (b.take 7)) ∧
    (f.length < 10 → processFrame s f = (s, [])) ∧
    (p.length < 13 → handleAudioStart s hdr p = (s, [])) ∧
    (q.length < 7 → handleAudioEnd s hdr q = (s, [])) := by
  refine ⟨?_, ?_, ?_, ?_, ?_, ?_⟩
  · simp [deserializeHeader, rd8, rd16, getD_take_lt]
  · simp [deserializeAudioStart, rd8, rd16, rd32, getD_take_lt]
  · simp [deserializeAudioEnd, rd8, rd16, rd32, getD_take_lt]
  · intro h
    simp only [processFrame, LORA_HEADER_SIZE, if_pos h]
  · intro h
    simp only [handleAudioStart, if_pos h]
  · intro h
    simp only [handleAudioEnd, if_pos h]

/-- Witness for C3 amended at concrete short buffers. -/
theorem C3_deserialize_bounds_witness :
    (deserializeHeader [1, 2, 3, 4, 5, 6, 7, 8, 9, 10, 11, 12] =
       deserializeHeader ([1, 2, 3, 4, 5, 6, 7, 8, 9, 10, 11, 12].take 10)) ∧
    ((List.replicate 5 (0 : Nat)).length < 10 ∧
     processFrame initSession (List.replicate 5 0) = (initSession, [])) ∧
    ((List.replicate 5 (0 : Nat)).length < 13 ∧
     handleAudioStart initSession ⟨0, 0, 0, 0, 0, 0, 0, 0⟩ (List.replicate 5 0) =
       (initSession, [])) ∧
    ((List.replicate 5 (0 : Nat)).length < 7 ∧
     handleAudioEnd initSession ⟨0, 0, 0, 0, 0, 0, 0, 0⟩ (List.replicate 5 0) =
       (initSession, [])) :=
  ⟨(C3_deserialize_bounds initSession ⟨0, 0, 0, 0, 0, 0, 0, 0⟩ [] [] []
      [1, 2, 3, 4, 5, 6, 7, 8, 9, 10, 11, 12]).1,
   ⟨by decide,
    (C3_deserialize_bounds initSession ⟨0, 0, 0, 0, 0, 0, 0, 0⟩
      (List.replicate 5 0) [] [] []).2.2.2.1 (by decide)⟩,
   ⟨by decide,
    (C3_deserialize_bounds initSession ⟨0, 0, 0, 0, 0, 0, 0, 0⟩ []
      (List.replicate 5 0) [] []).2.2.2.2.1 (by decide)⟩,
   ⟨by decide,
    (C3_deserialize_bounds initSession ⟨0, 0, 0, 0, 0, 0, 0, 0⟩ [] []
      (List.replicate 5 0) []).2.2.2.2.2 (by decide)⟩⟩

/-! ### Facts about the missing-fragment scan -/

/-- Position `k` of `k` received markers followed by unreceived ones reads
back as unreceived (also when the trailing block is empty, via the default). -/
theorem getD_markers_boundary (k m : Nat) :
    (List.replicate k true ++ List.replicate m false).getD k false = false := by
  induction k with
  | zero =>
    cases m with
    | zero => simp
    | succ j => simp
  | succ j ih => simpa [List.replicate_succ] using ih

theorem countMissing_pos (markers : List Bool) (tf k : Nat) (hk : k < tf)
    (hmk : markers.getD k false = false) : 0 < countMissing markers tf := by
  have hmem : k ∈ (List.range tf).filter (fun i => !(markers.getD i false)) := by
    rw [List.mem_filter, List.mem_range]
    refine ⟨hk, ?_⟩
    rw [hmk]
    rfl
  exact List.length_pos.2 (List.ne_nil_of_mem hmem)

theorem countMissing_eq_zero (tf : Nat) (rest : List Bool) :
    countMissing (List.replicate tf true ++ rest) tf = 0 := by
  unfold countMissing
  rw [List.length_eq_zero, List.filter_eq_nil_iff]
  intro i hi
  rw [List.mem_range] at hi
  rw [List.getD_append _ _ _ _ (by simpa using hi)]
  rw [List.getD_eq_getElem?_getD]
  simp [List.getElem?_replicate, hi]

/-! ### Claim C4 — AUDIO_END with missing fragments -/

/-- C4: in a receiving session that has accepted `k` fragments in arrival
order with `k` strictly below the announced total, an AUDIO_END frame with
a payload of at least 7 bytes is answered with
`Ack(seq, FRAGMENTS_MISSING)`, moves the receiver to IDLE, and delivers
nothing to the audio sink. -/
theorem C4_missing_fragment_abort (s : RxSession) (hdr : LoRaHeader)
    (p : List Nat) (k : Nat)
    (hst : s.state = RxState.RECEIVING)
    (hmk : s.frag_received = List.replicate k true ++
      List.replicate (MAX_FRAGS - k) false)
    (hk : k < s.total_frags)
    (hl : 7 ≤ p.length) :
    handleAudioEnd s hdr p =
      ({ s with state := RxState.IDLE },
       [RxOutput.ack hdr.seq_num ACK_STATUS_MISSING]) := by
  have hpos : 0 < countMissing s.frag_received s.total_frags := by
    refine countMissing_pos _ _ k hk ?_
    rw [hmk]
    exact getD_markers_boundary k (MAX_FRAGS - k)
  simp only [handleAudioEnd]
  rw [if_neg (by omega), if_pos hpos]


/-- Witness for C4: a 2-fragment session that accepted only one fragment. -/
theorem C4_missing_fragment_abort_witness :
    rxOneOfTwo.state = RxState.RECEIVING ∧
    rxOneOfTwo.frag_received =
      List.replicate 1 true ++ List.replicate (MAX_FRAGS - 1) false ∧
    1 < rxOneOfTwo.total_frags ∧
    7 ≤ (List.replicate 7 (0 : Nat)).length ∧
    handleAudioEnd rxOneOfTwo ⟨0, 0, 0, 0, 0, 0, 0, 0⟩ (List.replicate 7 0) =
      ({ rxOneOfTwo with state := RxState.IDLE },
       [RxOutput.ack 0 ACK_STATUS_MISSING]) :=
  ⟨rfl, by decide, by decide, by decide,
   C4_missing_fragment_abort _ _ _ 1 rfl (by decide) (by decide) (by decide)⟩

/-! ### Claim C8 — AUDIO_END never consults the session state variable -/

/-- C8: `handleAudioEnd` never reads `g_state`: for payloads of at least 7
bytes its behavior from IDLE equals its behavior from RECEIVING (for
shorter payloads both drop the frame), and after a successful transfer —
markers complete and the retained buffer matching the transmitted CRC32 —
reprocessing the very same AUDIO_END frame from the resulting IDLE state
acknowledges OK again and hands the buffer to the audio sink again. -/
theorem C8_audio_end_stateless (s : RxSession) (hdr : LoRaHeader)
    (p : List Nat) (st1 st2 : RxState) :
    ((handleAudioEnd { s with state := st1 } hdr p).2 =
       (handleAudioEnd { s with state := st2 } hdr p).2) ∧
    (7 ≤ p.length →
       handleAudioEnd { s with state := st1 } hdr p =
         handleAudioEnd { s with state := st2 } hdr p) ∧
    (7 ≤ p.length → countMissing s.frag_received s.total_frags = 0 →
     crc32 (s.audio_buf.take s.audio_len) = rd32 p 2 →
       handleAudioEnd s hdr p =
         ({ s with state := RxState.IDLE },
          [RxOutput.ack hdr.seq_num ACK_STATUS_OK,
           RxOutput.audio (s.audio_buf.take s.audio_len) s.codec_id s.sample_hz
             s.duration_ms]) ∧
       handleAudioEnd { s with state := RxState.IDLE } hdr p =
         ({ s with state := RxState.IDLE },
          [RxOutput.ack hdr.seq_num ACK_STATUS_OK,
           RxOutput.audio (s.audio_buf.take s.audio_len) s.codec_id s.sample_hz
             s.duration_ms])) := by
  have hbody : ∀ st : RxState, handleAudioEnd { s with state := st } hdr p =
      if p.length < 7 then ({ s with state := st }, [])
      else if 0 < countMissing s.frag_received s.total_frags then
        ({ s with state := RxState.IDLE },
         [RxOutput.ack hdr.seq_num ACK_STATUS_MISSING])
      else if crc32 (s.audio_buf.take s.audio_len) ≠ (deserializeAudioEnd p).crc32 then
        ({ s with state := RxState.IDLE },
         [RxOutput.ack hdr.seq_num ACK_STATUS_CRC_ERR])
      else
        ({ s with state := RxState.IDLE },
         [RxOutput.ack hdr.seq_num ACK_STATUS_OK,
          RxOutput.audio (s.audio_buf.take s.audio_len) s.codec_id s.sample_hz
            s.duration_ms]) := fun st => rfl
  have hplain : handleAudioEnd s hdr p =
      if p.length < 7 then (s, [])
      else if 0 < countMissing s.frag_received s.total_frags then
        ({ s with state := RxState.IDLE },
         [RxOutput.ack hdr.seq_num ACK_STATUS_MISSING])
      else if crc32 (s.audio_buf.take s.audio_len) ≠ (deserializeAudioEnd p).crc32 then
        ({ s with state := RxState.IDLE },
         [RxOutput.ack hdr.seq_num ACK_STATUS_CRC_ERR])
      else
        ({ s with state := RxState.IDLE },
         [RxOutput.ack hdr.seq_num ACK_STATUS_OK,
          RxOutput.audio (s.audio_buf.take s.audio_len) s.codec_id s.sample_hz
            s.duration_ms]) := rfl
  refine ⟨?_, ?_, ?_⟩
  · rw [hbody st1, hbody st2]
    by_cases h7 : p.length < 7
    · simp only [if_pos h7]
    · simp only [if_neg h7]
  · intro h7
    have hn : ¬ p.length < 7 := by omega
    rw [hbody st1, hbody st2]
    simp only [if_neg hn]
  · intro h7 hmiss hcrc
    have hc : crc32 (s.audio_buf.take s.audio_len) = (deserializeAudioEnd p).crc32 :=
      hcrc
    constructor
    · rw [hplain, if_neg (by omega), if_neg (by omega), if_neg (by simp [hc])]
    · rw [hbody RxState.IDLE, if_neg (by omega), if_neg (by omega),
        if_neg (by simp [hc])]

/-- Witness for C8: the empty transfer (no fragments announced, empty
payload, CRC32 of the empty byte sequence) processed twice. -/
theorem C8_audio_end_stateless_witness :
    7 ≤ (serializeAudioEnd ⟨0, 0, 0⟩).length ∧
    countMissing initSession.frag_received initSession.total_frags = 0 ∧
    crc32 (initSession.audio_buf.take initSession.audio_len) =
      rd32 (serializeAudioEnd ⟨0, 0, 0⟩) 2 ∧
    (handleAudioEnd initSession ⟨0, 0, 0, 0, 0, 0, 0, 0⟩ (serializeAudioEnd ⟨0, 0, 0⟩) =
       ({ initSession with state := RxState.IDLE },
        [RxOutput.ack 0 ACK_STATUS_OK,
         RxOutput.audio (initSession.audio_buf.take initSession.audio_len)
           initSession.codec_id initSession.sample_hz initSession.duration_ms]) ∧
     handleAudioEnd { initSession with state := RxState.IDLE }
         ⟨0, 0, 0, 0, 0, 0, 0, 0⟩ (serializeAudioEnd ⟨0, 0, 0⟩) =
       ({ initSession with state := RxState.IDLE },
        [RxOutput.ack 0 ACK_STATUS_OK,
         RxOutput.audio (initSession.audio_buf.take initSession.audio_len)
           initSession.codec_id initSession.sample_hz initSession.duration_ms])) :=
  ⟨by decide, by decide, by decide,
   (C8_audio_end_stateless initSession ⟨0, 0, 0, 0, 0, 0, 0, 0⟩
      (serializeAudioEnd ⟨0, 0, 0⟩) RxState.IDLE RxState.IDLE).2.2
     (by decide) (by decide) (by decide)⟩

/-! ### Claim C9 — data acceptance is bounded by capacity, not total_frags -/

/-- C9: while RECEIVING, `handleAudioData` accepts a fragment whenever the
arrival-order counter is below the static capacity `MAX_FRAGS` — the
announced `total_frags` plays no role — copying the payload at the next
arrival-order slot, marking it, adding to the byte count, bumping the
counter and acknowledging OK; once the counter has reached `MAX_FRAGS`
further frames are dropped without acknowledgment; and one step preserves
`frags_rx ≤ MAX_FRAGS` and `audio_len ≤ MAX_AUDIO_BYTES`. -/
theorem C9_data_capacity (s : RxSession) (hdr : LoRaHeader) (p : List Nat) :
    (s.state = RxState.RECEIVING → s.frags_rx < MAX_FRAGS →
     p.length ≤ LORA_MAX_DATA_PAYLOAD →
       handleAudioData s hdr p =
         ({ s with
            audio_buf := writeBytes s.audio_buf (s.frags_rx * LORA_MAX_DATA_PAYLOAD) p,
            frag_received := s.frag_received.set s.frags_rx true,
            audio_len := s.audio_len + p.length,
            frags_rx := s.frags_rx + 1 },
          [RxOutput.ack hdr.seq_num ACK_STATUS_OK])) ∧
    (s.state = RxState.RECEIVING → MAX_FRAGS ≤ s.frags_rx →
       handleAudioData s hdr p = (s, [])) ∧
    (s.frags_rx ≤ MAX_FRAGS → s.audio_len ≤ LORA_MAX_DATA_PAYLOAD * s.frags_rx →
       (handleAudioData s hdr p).1.frags_rx ≤ MAX_FRAGS ∧
       (handleAudioData s hdr p).1.audio_len ≤ MAX_AUDIO_BYTES ∧
       (p.length ≤ LORA_MAX_DATA_PAYLOAD →
         (handleAudioData s hdr p).1.audio_len ≤
           LORA_MAX_DATA_PAYLOAD * (handleAudioData s hdr p).1.frags_rx)) := by
  have hdrop1 : s.state ≠ RxState.RECEIVING → handleAudioData s hdr p = (s, []) := by
    intro h
    simp only [handleAudioData, if_pos h]
  have hdrop2 : s.state = RxState.RECEIVING → MAX_FRAGS ≤ s.frags_rx →
      handleAudioData s hdr p = (s, []) := by
    intro h1 h2
    simp only [handleAudioData]
    rw [if_neg (by simp [h1]), if_pos h2]
  have hdrop3 : s.state = RxState.RECEIVING → s.frags_rx < MAX_FRAGS →
      MAX_AUDIO_BYTES < s.frags_rx * LORA_MAX_DATA_PAYLOAD + p.length →
      handleAudioData s hdr p = (s, []) := by
    intro h1 h2 h3
    simp only [handleAudioData]
    rw [if_neg (by simp [h1]), if_neg (by omega), if_pos h3]
  have haccept : s.state = RxState.RECEIVING → s.frags_rx < MAX_FRAGS →
      ¬ (MAX_AUDIO_BYTES < s.frags_rx * LORA_MAX_DATA_PAYLOAD + p.length) →
      handleAudioData s hdr p =
        ({ s with
           audio_buf := writeBytes s.audio_buf (s.frags_rx * LORA_MAX_DATA_PAYLOAD) p,
           frag_received := s.frag_received.set s.frags_rx true,
           audio_len := s.audio_len + p.length,
           frags_rx := s.frags_rx + 1 },
         [RxOutput.ack hdr.seq_num ACK_STATUS_OK]) := by
    intro h1 h2 h3
    simp only [handleAudioData]
    rw [if_neg (by simp [h1]), if_neg (by omega), if_neg h3]
  refine ⟨?_, ?_, ?_⟩
  · intro h1 h2 h3
    refine haccept h1 h2 ?_
    have : s.frags_rx ≤ 21 := by
      simpa [MAX_FRAGS] using Nat.lt_iff_le_pred (by omega) |>.1 h2
    simp only [MAX_AUDIO_BYTES, MAX_FRAGS, LORA_MAX_DATA_PAYLOAD, LORA_MAX_PAYLOAD,
      LORA_HEADER_SIZE] at *
    omega
  · intro h1 h2
    exact hdrop2 h1 h2
  · intro h1 h2
    rcases eq_or_ne s.state RxState.RECEIVING with c1 | c1
    · rcases Nat.lt_or_ge s.frags_rx MAX_FRAGS with c2 | c2
      · by_cases c3 : MAX_AUDIO_BYTES < s.frags_rx * LORA_MAX_DATA_PAYLOAD + p.length
        · rw [hdrop3 c1 c2 c3]
          simp only [MAX_AUDIO_BYTES, MAX_FRAGS, LORA_MAX_DATA_PAYLOAD,
            LORA_MAX_PAYLOAD, LORA_HEADER_SIZE] at *
          refine ⟨by omega, by omega, fun hp => by omega⟩
        · rw [haccept c1 c2 c3]
          simp only [MAX_AUDIO_BYTES, MAX_FRAGS, LORA_MAX_DATA_PAYLOAD,
            LORA_MAX_PAYLOAD, LORA_HEADER_SIZE] at *
          refine ⟨by omega, by omega, fun hp => by omega⟩
      · rw [hdrop2 c1 c2]
        simp only [MAX_AUDIO_BYTES, MAX_FRAGS, LORA_MAX_DATA_PAYLOAD,
          LORA_MAX_PAYLOAD, LORA_HEADER_SIZE] at *
        refine ⟨by omega, by omega, fun hp => by omega⟩
    · rw [hdrop1 c1]
      simp only [MAX_AUDIO_BYTES, MAX_FRAGS, LORA_MAX_DATA_PAYLOAD,
        LORA_MAX_PAYLOAD, LORA_HEADER_SIZE] at *
      refine ⟨by omega, by omega, fun hp => by omega⟩



/-- Witness for C9: a session that already holds the one announced
fragment accepts a further fragment; a session at 22 received fragments
drops it silently; the step invariant at the first session. -/
theorem C9_data_capacity_witness :
    (rxFullOne.state = RxState.RECEIVING ∧
     rxFullOne.frags_rx < MAX_FRAGS ∧
     (List.replicate 10 (0 : Nat)).length ≤ LORA_MAX_DATA_PAYLOAD ∧
     handleAudioData rxFullOne ⟨0, 0, 0, 0, 0, 0, 0, 0⟩ (List.replicate 10 0) =
       ({ rxFullOne with
            audio_buf := writeBytes rxFullOne.audio_buf
              (rxFullOne.frags_rx * LORA_MAX_DATA_PAYLOAD) (List.replicate 10 0)
            frag_received := rxFullOne.frag_received.set rxFullOne.frags_rx true
            audio_len := rxFullOne.audio_len + (List.replicate 10 (0 : Nat)).length
            frags_rx := rxFullOne.frags_rx + 1 },
        [RxOutput.ack 0 ACK_STATUS_OK])) ∧
    (MAX_FRAGS ≤ rxAtCapacity.frags_rx ∧
     handleAudioData rxAtCapacity ⟨0, 0, 0, 0, 0, 0, 0, 0⟩ (List.replicate 10 0) =
       (rxAtCapacity, [])) ∧
    ((handleAudioData rxFullOne ⟨0, 0, 0, 0, 0, 0, 0, 0⟩
        (List.replicate 10 0)).1.frags_rx ≤ MAX_FRAGS ∧
     (handleAudioData rxFullOne ⟨0, 0, 0, 0, 0, 0, 0, 0⟩
        (List.replicate 10 0)).1.audio_len ≤ MAX_AUDIO_BYTES) :=
  ⟨⟨rfl, by decide, by decide,
    (C9_data_capacity rxFullOne ⟨0, 0, 0, 0, 0, 0, 0, 0⟩
      (List.replicate 10 0)).1 rfl (by decide) (by decide)⟩,
   ⟨by decide,
    (C9_data_capacity rxAtCapacity ⟨0, 0, 0, 0, 0, 0, 0, 0⟩
      (List.replicate 10 0)).2.1 rfl (by decide)⟩,
   ⟨((C9_data_capacity rxFullOne ⟨0, 0, 0, 0, 0, 0, 0, 0⟩
      (List.replicate 10 0)).2.2 (by decide) (by decide)).1,
    ((C9_data_capacity rxFullOne ⟨0, 0, 0, 0, 0, 0, 0, 0⟩
      (List.replicate 10 0)).2.2 (by decide) (by decide)).2.1⟩⟩

/-! ### Claim C2 — AUDIO_START handling -/

/-- C2 counterexample: a checksum-failing AUDIO_START leaves the receiver
in whatever state it was in — here RECEIVING, reachable by the valid
zero-fragment AUDIO_START shown in the first conjunct — so the receiver is
NOT in IDLE afterwards; it does send `Ack(seq, CHECKSUM_ERROR)` and starts
no session. -/
theorem C2_counterexample :
    handleAudioStart initSession ⟨0x11, 1, 2, 1, 7, 5, 14, 0x75⟩
        (List.replicate 11 0 ++ [15, 212]) =
      ({ initSession with state := RxState.RECEIVING, session_id := 7 },
       [RxOutput.ack 5 ACK_STATUS_OK]) ∧
    (handleAudioStart { initSession with state := RxState.RECEIVING, session_id := 7 }
        ⟨0x11, 1, 2, 1, 7, 6, 14, 0x75⟩ (List.replicate 13 0)).1.state ≠
      RxState.IDLE ∧
    (handleAudioStart { initSession with state := RxState.RECEIVING, session_id := 7 }
        ⟨0x11, 1, 2, 1, 7, 6, 14, 0x75⟩ (List.replicate 13 0)).2 =
      [RxOutput.ack 6 ACK_STATUS_CRC_ERR] := by
  refine ⟨rfl, by decide, rfl⟩

/-- C2 amended: for an AUDIO_START with payload of at least 13 valid
bytes — on checksum mismatch over the first 11 payload bytes the receiver
sends `Ack(seq, CHECKSUM_ERROR)` and leaves the entire session record
unchanged (so it is in IDLE afterwards only if it already was); on
checksum match with `total_frags` above the 22-fragment capacity it sends
`Ack(seq, FRAGMENTS_MISSING)` and changes nothing; otherwise it discards
any in-progress session, clears markers and buffer, records the announced
metadata, enters RECEIVING and sends `Ack(seq, OK)`. -/
theorem C2_audio_start_handling (s : RxSession) (hdr : LoRaHeader) (p : List Nat)
    (hl : 13 ≤ p.length) (hb : ∀ b ∈ p, b < 256) :
    (crc16 (p.take 11) ≠ rd16 p 11 →
       handleAudioStart s hdr p =
         (s, [RxOutput.ack hdr.seq_num ACK_STATUS_CRC_ERR])) ∧
    (crc16 (p.take 11) = rd16 p 11 → MAX_FRAGS < rd16 p 0 →
       handleAudioStart s hdr p =
         (s, [RxOutput.ack hdr.seq_num ACK_STATUS_MISSING])) ∧
    (crc16 (p.take 11) = rd16 p 11 → rd16 p 0 ≤ MAX_FRAGS →
       handleAudioStart s hdr p =
         ({ state := RxState.RECEIVING, session_id := hdr.session_id,
            total_frags := rd16 p 0, frags_rx := 0, audio_len := 0,
            codec_id := rd8 p 2, sample_hz := rd16 p 3, duration_ms := rd16 p 5,
            total_size := rd32 p 7,
            frag_received := List.replicate MAX_FRAGS false,
            audio_buf := List.replicate MAX_AUDIO_BYTES 0 },
          [RxOutput.ack hdr.seq_num ACK_STATUS_OK])) := by
  have hkey : (serializeAudioStart (deserializeAudioStart p)).take 11 = p.take 11 := by
    rw [serializeAudioStart_deserializeAudioStart, take11_of_bytes p (by omega) hb]
    rfl
  have hlen : ¬ p.length < 13 := by omega
  refine ⟨?_, ?_, ?_⟩
  · intro hne
    have hc : crc16 ((serializeAudioStart (deserializeAudioStart p)).take 11) ≠
        (deserializeAudioStart p).crc16 := by
      rw [hkey]
      exact hne
    simp only [handleAudioStart, if_neg hlen, if_pos hc]
  · intro heq hgt
    have hc : ¬ (crc16 ((serializeAudioStart (deserializeAudioStart p)).take 11) ≠
        (deserializeAudioStart p).crc16) := by
      rw [hkey]
      exact not_ne_iff.2 heq
    have hg : MAX_FRAGS < (deserializeAudioStart p).total_frags := hgt
    simp only [handleAudioStart, if_neg hlen, if_neg hc, if_pos hg]
  · intro heq hle
    have hc : ¬ (crc16 ((serializeAudioStart (deserializeAudioStart p)).take 11) ≠
        (deserializeAudioStart p).crc16) := by
      rw [hkey]
      exact not_ne_iff.2 heq
    have hg : ¬ MAX_FRAGS < (deserializeAudioStart p).total_frags := not_lt.2 hle
    simp only [handleAudioStart, if_neg hlen, if_neg hc, if_neg hg]
    rfl

/-- Witness for C2 at three concrete 13-byte payloads: corrupted
checksum, a valid checksum announcing 23 fragments, and a valid
zero-fragment announcement. -/
theorem C2_audio_start_handling_witness :
    (13 ≤ (List.replicate 13 (0 : Nat)).length ∧
     (∀ b ∈ List.replicate 13 (0 : Nat), b < 256) ∧
     crc16 ((List.replicate 13 (0 : Nat)).take 11) ≠ rd16 (List.replicate 13 0) 11 ∧
     handleAudioStart initSession ⟨0x11, 1, 2, 1, 7, 9, 14, 0x75⟩
         (List.replicate 13 0) =
       (initSession, [RxOutput.ack 9 ACK_STATUS_CRC_ERR])) ∧
    (crc16 (([23, 0, 0, 0, 0, 0, 0, 0, 0, 0, 0, 143, 168] : List Nat).take 11) =
       rd16 [23, 0, 0, 0, 0, 0, 0, 0, 0, 0, 0, 143, 168] 11 ∧
     MAX_FRAGS < rd16 [23, 0, 0, 0, 0, 0, 0, 0, 0, 0, 0, 143, 168] 0 ∧
     handleAudioStart initSession ⟨0x11, 1, 2, 1, 7, 9, 14, 0x75⟩
         [23, 0, 0, 0, 0, 0, 0, 0, 0, 0, 0, 143, 168] =
       (initSession, [RxOutput.ack 9 ACK_STATUS_MISSING])) ∧
    (crc16 ((List.replicate 11 (0 : Nat) ++ [15, 212]).take 11) =
       rd16 (List.replicate 11 0 ++ [15, 212]) 11 ∧
     rd16 (List.replicate 11 0 ++ [15, 212]) 0 ≤ MAX_FRAGS ∧
     handleAudioStart initSession ⟨0x11, 1, 2, 1, 7, 9, 14, 0x75⟩
         (List.replicate 11 0 ++ [15, 212]) =
       ({ state := RxState.RECEIVING, session_id := 7,
          total_frags := rd16 (List.replicate 11 0 ++ [15, 212]) 0,
          frags_rx := 0, audio_len := 0,
          codec_id := rd8 (List.replicate 11 0 ++ [15, 212]) 2,
          sample_hz := rd16 (List.replicate 11 0 ++ [15, 212]) 3,
          duration_ms := rd16 (List.replicate 11 0 ++ [15, 212]) 5,
          total_size := rd32 (List.replicate 11 0 ++ [15, 212]) 7,
          frag_received := List.replicate MAX_FRAGS false,
          audio_buf := List.replicate MAX_AUDIO_BYTES 0 },
        [RxOutput.ack 9 ACK_STATUS_OK])) :=
  ⟨⟨by decide, by decide, by decide,
    (C2_audio_start_handling initSession ⟨0x11, 1, 2, 1, 7, 9, 14, 0x75⟩
      (List.replicate 13 0) (by decide) (by decide)).1 (by decide)⟩,
   ⟨by decide, by decide,
    (C2_audio_start_handling initSession ⟨0x11, 1, 2, 1, 7, 9, 14, 0x75⟩
      [23, 0, 0, 0, 0, 0, 0, 0, 0, 0, 0, 143, 168] (by decide) (by decide)).2.1
      (by decide) (by decide)⟩,
   ⟨by decide, by decide,
    (C2_audio_start_handling initSession ⟨0x11, 1, 2, 1, 7, 9, 14, 0x75⟩
      (List.replicate 11 0 ++ [15, 212]) (by decide) (by decide)).2.2
      (by decide) (by decide)⟩⟩

/-! ### Range of the CRC state -/

theorem xor_lt_word {x y : Nat} (hx : x < 4294967296) (hy : y < 4294967296) :
    x ^^^ y < 4294967296 := by
  have h32 : (4294967296 : Nat) = 2 ^ 32 := by norm_num
  rw [h32] at hx hy ⊢
  exact Nat.bitwise_lt hx hy

theorem crc32Round_lt {y : Nat} (hy : y < 4294967296) :
    crc32Round y < 4294967296 := by
  have h1 : y >>> 1 < 4294967296 := by
    rw [Nat.shiftRight_one]
    omega
  unfold crc32Round
  split
  · exact xor_lt_word h1 (by omega)
  · exact h1

theorem crc32_lt (data : List Nat) : crc32 data < 4294967296 := by
  have aux : ∀ (l : List Nat) (c : Nat), c < 4294967296 →
      l.foldl (fun crc b => iter8 crc32Round (crc ^^^ (b % 256))) c < 4294967296 := by
    intro l
    induction l with
    | nil => intro c hc; exact hc
    | cons x xs ih =>
      intro c hc
      refine ih _ ?_
      have h0 : c ^^^ (x % 256) < 4294967296 := xor_lt_word hc (by omega)
      exact crc32Round_lt (crc32Round_lt (crc32Round_lt (crc32Round_lt
        (crc32Round_lt (crc32Round_lt (crc32Round_lt (crc32Round_lt h0)))))))
  exact xor_lt_word (by omega) (aux data 0xFFFFFFFF (by omega))

theorem crc16Round_lt (c : Nat) : crc16Round c < 65536 := by
  unfold crc16Round
  split <;> exact Nat.mod_lt _ (by omega)

theorem crc16_lt (data : List Nat) : crc16 data < 65536 := by
  have aux : ∀ (l : List Nat) (c : Nat), c < 65536 →
      l.foldl (fun crc b => iter8 crc16Round ((crc ^^^ ((b % 256) <<< 8)) % 65536))
        c < 65536 := by
    intro l
    induction l with
    | nil => intro c hc; exact hc
    | cons x xs ih =>
      intro c hc
      refine ih _ ?_
      exact crc16Round_lt _
  exact aux data 0xFFFF (by omega)

/-! ### Fragment arithmetic -/

theorem fragments_nil : fragments [] = [] := by
  rw [fragments]
  simp

theorem fragments_cons (p : List Nat) (h : p ≠ []) :
    fragments p =
      p.take LORA_MAX_DATA_PAYLOAD :: fragments (p.drop LORA_MAX_DATA_PAYLOAD) := by
  rw [fragments]
  simp [h]

theorem numFrags_zero : numFrags 0 = 0 := rfl

theorem numFrags_succ (n : Nat) (hn : 0 < n) :
    numFrags n = 1 + numFrags (n - LORA_MAX_DATA_PAYLOAD) := by
  simp only [numFrags, LORA_MAX_DATA_PAYLOAD, LORA_MAX_PAYLOAD, LORA_HEADER_SIZE]
  omega

theorem numFrags_pos (n : Nat) (hn : 0 < n) : 0 < numFrags n := by
  simp only [numFrags, LORA_MAX_DATA_PAYLOAD, LORA_MAX_PAYLOAD, LORA_HEADER_SIZE]
  omega

theorem numFrags_le_of_le (n : Nat) (hn : n ≤ MAX_AUDIO_BYTES) :
    numFrags n ≤ MAX_FRAGS := by
  simp only [numFrags, MAX_AUDIO_BYTES, MAX_FRAGS, LORA_MAX_DATA_PAYLOAD,
    LORA_MAX_PAYLOAD, LORA_HEADER_SIZE] at *
  omega

theorem length_fragments_aux : ∀ (n : Nat) (p : List Nat), p.length ≤ n →
    (fragments p).length = numFrags p.length := by
  intro n
  induction n with
  | zero =>
    intro p hp
    have hnil : p = [] := List.eq_nil_of_length_eq_zero (by omega)
    subst hnil
    rw [fragments_nil]
    rfl
  | succ m ih =>
    intro p hp
    by_cases h : p = []
    · subst h
      rw [fragments_nil]
      rfl
    · rw [fragments_cons p h]
      have hple : 0 < p.length := List.length_pos.2 h
      have ihd := ih (p.drop LORA_MAX_DATA_PAYLOAD) (by
        simp only [List.length_drop, LORA_MAX_DATA_PAYLOAD, LORA_MAX_PAYLOAD,
          LORA_HEADER_SIZE]
        omega)
      simp only [List.length_cons, ihd, List.length_drop]
      simp only [numFrags, LORA_MAX_DATA_PAYLOAD, LORA_MAX_PAYLOAD,
        LORA_HEADER_SIZE]
      omega

theorem length_fragments (p : List Nat) :
    (fragments p).length = numFrags p.length :=
  length_fragments_aux p.length p le_rfl

/-! ### Marker and buffer update shapes -/

theorem set_markers (k m : Nat) (hm : 0 < m) :
    (List.replicate k true ++ List.replicate m false).set k true =
      List.replicate (k + 1) true ++ List.replicate (m - 1) false := by
  induction k with
  | zero =>
    cases m with
    | zero => omega
    | succ j => simp [List.replicate_succ]
  | succ j ih =>
    simp [List.replicate_succ, ih]

theorem writeBytes_aligned (done frag : List Nat) (z : Nat) :
    writeBytes (done ++ List.replicate z 0) done.length frag =
      done ++ (frag ++ List.replicate (z - frag.length) 0) := by
  unfold writeBytes
  rw [List.take_left, List.drop_append, List.drop_replicate, List.append_assoc]

theorem runFrames_append (s : RxSession) (a b : List (List Nat)) :
    runFrames s (a ++ b) =
      ((runFrames (runFrames s a).1 b).1,
       (runFrames s a).2 ++ (runFrames (runFrames s a).1 b).2) := by
  induction a generalizing s with
  | nil => simp [runFrames]
  | cons f fs ih =>
    simp only [List.cons_append, runFrames, List.append_eq, ih, List.append_assoc]

/-! ### Processing one well-addressed frame of each type -/

theorem processFrame_good (s : RxSession) (h : LoRaHeader) (r : List Nat)
    (t : Nat) (hg : goodHeader h t) :
    processFrame s (serializeHeader h ++ r) =
      (if t = PKT_AUDIO_START then
         handleAudioStart s (deserializeHeader (serializeHeader h ++ r)) r
       else if t = PKT_AUDIO_DATA then
         handleAudioData s (deserializeHeader (serializeHeader h ++ r)) r
       else if t = PKT_AUDIO_END then
         handleAudioEnd s (deserializeHeader (serializeHeader h ++ r)) r
       else (s, [])) := by
  obtain ⟨hv, hdst, hty, hseq⟩ := hg
  have hlen : ¬ (serializeHeader h ++ r).length < LORA_HEADER_SIZE := by
    simp [List.length_append, length_serializeHeader, LORA_HEADER_SIZE]
  have hnorm := deserializeHeader_serializeHeader_append h r
  have hd : ¬ ((deserializeHeader (serializeHeader h ++ r)).dst_id ≠ MY_NODE_ID) := by
    rw [hnorm]
    simp [MY_NODE_ID, hdst]
  have hgt : getType (deserializeHeader (serializeHeader h ++ r)).ver_type = t := by
    rw [hnorm]
    simp only [getType]
    rw [Nat.mod_eq_of_lt hv]
    exact hty
  have hdrop : (serializeHeader h ++ r).drop LORA_HEADER_SIZE = r :=
    List.drop_left' (length_serializeHeader h)
  simp only [processFrame, if_neg hlen, if_neg hd, hgt, hdrop]

theorem seq_num_norm (h : LoRaHeader) (r : List Nat) (t : Nat)
    (hg : goodHeader h t) :
    (deserializeHeader (serializeHeader h ++ r)).seq_num = h.seq_num := by
  rw [deserializeHeader_serializeHeader_append]
  exact Nat.mod_eq_of_lt hg.2.2.2

theorem handleAudioStart_mk (s : RxSession) (hdr : LoRaHeader)
    (sp : AudioStartPayload) (hv : startFieldsValid sp)
    (hcrcf : sp.crc16 = crc16 ((serializeAudioStart sp).take 11))
    (hnf : sp.total_frags ≤ MAX_FRAGS) :
    handleAudioStart s hdr (serializeAudioStart sp) =
      ({ state := RxState.RECEIVING, session_id := hdr.session_id,
         total_frags := sp.total_frags, frags_rx := 0, audio_len := 0,
         codec_id := sp.codec_id, sample_hz := sp.sample_hz,
         duration_ms := sp.duration_ms, total_size := sp.total_size,
         frag_received := List.replicate MAX_FRAGS false,
         audio_buf := List.replicate MAX_AUDIO_BYTES 0 },
       [RxOutput.ack hdr.seq_num ACK_STATUS_OK]) := by
  have hsp := deserializeAudioStart_serializeAudioStart sp hv
  have hlen : ¬ (serializeAudioStart sp).length < 13 := by
    rw [length_serializeAudioStart]
    omega
  have hcrc : ¬ (crc16 ((serializeAudioStart sp).take 11) ≠ sp.crc16) := by
    rw [hcrcf]
    exact fun hne => hne rfl
  have hcap : ¬ (MAX_FRAGS < sp.total_frags) := by
    omega
  simp only [handleAudioStart, if_neg hlen, hsp, if_neg hcrc, if_neg hcap]

theorem processFrame_mkStartFrame (s : RxSession) (h : LoRaHeader)
    (nf cdc hz dur ts : Nat) (hg : goodHeader h PKT_AUDIO_START)
    (hnf : nf ≤ MAX_FRAGS) (hcd : cdc < 256) (hhz : hz < 65536)
    (hdu : dur < 65536) (hts : ts < 4294967296) :
    processFrame s (mkStartFrame h nf cdc hz dur ts) =
      (midSession (h.session_id % 65536) nf cdc hz dur ts 0 [],
       [RxOutput.ack h.seq_num ACK_STATUS_OK]) := by
  have he : mkStartFrame h nf cdc hz dur ts = serializeHeader h ++
      serializeAudioStart ⟨nf, cdc, hz, dur, ts,
        crc16 ((serializeAudioStart ⟨nf, cdc, hz, dur, ts, 0⟩).take 11)⟩ := rfl
  have hnf65 : nf < 65536 := by
    simp only [MAX_FRAGS] at hnf
    omega
  rw [he, processFrame_good s h _ PKT_AUDIO_START hg, if_pos rfl]
  rw [handleAudioStart_mk s _ _ ⟨hnf65, hcd, hhz, hdu, hts, crc16_lt _⟩ rfl hnf]
  have hseq := seq_num_norm h (serializeAudioStart ⟨nf, cdc, hz, dur, ts,
      crc16 ((serializeAudioStart ⟨nf, cdc, hz, dur, ts, 0⟩).take 11)⟩)
      PKT_AUDIO_START hg
  have hsid : (deserializeHeader (serializeHeader h ++
      serializeAudioStart ⟨nf, cdc, hz, dur, ts,
        crc16 ((serializeAudioStart ⟨nf, cdc, hz, dur, ts, 0⟩).take 11)⟩)).session_id =
      h.session_id % 65536 := by
    rw [deserializeHeader_serializeHeader_append]
  rw [hseq, hsid]
  rw [Prod.mk.injEq]
  refine ⟨?_, rfl⟩
  simp [midSession]

theorem processFrame_mkDataFrame (sid tf cdc hz dur ts k : Nat)
    (done : List Nat) (h : LoRaHeader) (frag : List Nat)
    (hg : goodHeader h PKT_AUDIO_DATA)
    (hdone : done.length = k * LORA_MAX_DATA_PAYLOAD)
    (hk : k < MAX_FRAGS)
    (hfrag : frag.length ≤ LORA_MAX_DATA_PAYLOAD) :
    processFrame (midSession sid tf cdc hz dur ts k done) (mkDataFrame h frag) =
      (midSession sid tf cdc hz dur ts (k + 1) (done ++ frag),
       [RxOutput.ack h.seq_num ACK_STATUS_OK]) := by
  have he : mkDataFrame h frag = serializeHeader h ++ frag := rfl
  rw [he, processFrame_good _ h _ PKT_AUDIO_DATA hg]
  rw [if_neg (by simp [PKT_AUDIO_DATA, PKT_AUDIO_START]), if_pos rfl]
  have hseq := seq_num_norm h frag PKT_AUDIO_DATA hg
  have hkM : k ≤ 21 := by
    simp only [MAX_FRAGS] at hk
    omega
  have hfM : frag.length ≤ 245 := by
    simpa [LORA_MAX_DATA_PAYLOAD, LORA_MAX_PAYLOAD, LORA_HEADER_SIZE] using hfrag
  simp only [handleAudioData, midSession]
  rw [if_neg (by simp), if_neg (by simp [MAX_FRAGS]; omega),
    if_neg (by
      simp only [MAX_AUDIO_BYTES, MAX_FRAGS, LORA_MAX_DATA_PAYLOAD,
        LORA_MAX_PAYLOAD, LORA_HEADER_SIZE]
      omega)]
  rw [Prod.mk.injEq]
  constructor
  · rw [RxSession.mk.injEq]
    refine ⟨rfl, rfl, rfl, rfl, ?_, rfl, rfl, rfl, rfl, ?_, ?_⟩
    · simp [List.length_append]
    · rw [set_markers k (MAX_FRAGS - k) (by simp only [MAX_FRAGS] at *; omega)]
      have : MAX_FRAGS - k - 1 = MAX_FRAGS - (k + 1) := by omega
      rw [this]
    · rw [← hdone]
      rw [writeBytes_aligned done frag (MAX_AUDIO_BYTES - done.length)]
      rw [← List.append_assoc]
      have : MAX_AUDIO_BYTES - done.length - frag.length =
          MAX_AUDIO_BYTES - (done ++ frag).length := by
        simp only [List.length_append]
        omega
      rw [this]
  · rw [hseq]

theorem processFrame_mkEndFrame (sid nf cdc hz dur ts : Nat) (p : List Nat)
    (h : LoRaHeader) (hg : goodHeader h PKT_AUDIO_END)
    (hnf : nf < 65536) :
    processFrame (midSession sid nf cdc hz dur ts nf p)
        (mkEndFrame h nf (crc32 p)) =
      ({ midSession sid nf cdc hz dur ts nf p with state := RxState.IDLE },
       [RxOutput.ack h.seq_num ACK_STATUS_OK,
        RxOutput.audio p cdc hz dur]) := by
  have he : mkEndFrame h nf (crc32 p) =
      serializeHeader h ++ serializeAudioEnd ⟨nf, crc32 p, 0⟩ := rfl
  rw [he, processFrame_good _ h _ PKT_AUDIO_END hg]
  rw [if_neg (by simp [PKT_AUDIO_END, PKT_AUDIO_START]),
    if_neg (by simp [PKT_AUDIO_END, PKT_AUDIO_DATA]), if_pos rfl]
  have hseq := seq_num_norm h (serializeAudioEnd ⟨nf, crc32 p, 0⟩) PKT_AUDIO_END hg
  have hep : deserializeAudioEnd (serializeAudioEnd ⟨nf, crc32 p, 0⟩) =
      ⟨nf, crc32 p, 0⟩ :=
    deserializeAudioEnd_serializeAudioEnd _ ⟨hnf, crc32_lt p, by show (0:Nat) < 256; omega⟩
  have hmiss : countMissing
      (List.replicate nf true ++ List.replicate (MAX_FRAGS - nf) false) nf = 0 :=
    countMissing_eq_zero nf _
  have htake : (p ++ List.replicate (MAX_AUDIO_BYTES - p.length) 0).take p.length
      = p := List.take_left p _
  simp only [handleAudioEnd, length_serializeAudioEnd, midSession, hep, hmiss]
  rw [if_neg (by omega), if_neg (by omega), if_neg (by rw [htake]; simp)]
  rw [Prod.mk.injEq]
  constructor
  · rfl
  · rw [hseq, htake]

/-! ### The reassembly loop over the data fragments -/

theorem runFrames_data (hs : List LoRaHeader) (q : List Nat)
    (sid tf cdc hz dur ts k : Nat) (done : List Nat)
    (hlen : hs.length = (fragments q).length)
    (hgood : ∀ h2 ∈ hs, goodHeader h2 PKT_AUDIO_DATA)
    (hq : q ≠ [] → done.length = k * LORA_MAX_DATA_PAYLOAD)
    (hk : k + numFrags q.length ≤ MAX_FRAGS) :
    runFrames (midSession sid tf cdc hz dur ts k done)
      (List.zipWith mkDataFrame hs (fragments q)) =
      (midSession sid tf cdc hz dur ts (k + numFrags q.length) (done ++ q),
       hs.map (fun h2 => RxOutput.ack h2.seq_num ACK_STATUS_OK)) := by
  induction hs generalizing q k done with
  | nil =>
    have hq0 : q = [] := by
      by_cases hcase : q = []
      · exact hcase
      · exfalso
        rw [fragments_cons q hcase] at hlen
        simp at hlen
    subst hq0
    rw [fragments_nil]
    simp [runFrames, numFrags_zero]
  | cons h2 hs2 ih =>
    have hqne : q ≠ [] := by
      intro hee
      subst hee
      rw [fragments_nil] at hlen
      simp at hlen
    have hqpos : 0 < q.length := List.length_pos.2 hqne
    have hnfpos := numFrags_pos q.length hqpos
    rw [fragments_cons q hqne] at hlen ⊢
    simp only [List.length_cons] at hlen
    have hk1 : k < MAX_FRAGS := by
      simp only [MAX_FRAGS] at *
      omega
    have hfr : (q.take LORA_MAX_DATA_PAYLOAD).length ≤ LORA_MAX_DATA_PAYLOAD := by
      simp [List.length_take]
    simp only [List.zipWith_cons_cons, runFrames]
    rw [processFrame_mkDataFrame sid tf cdc hz dur ts k done h2
      (q.take LORA_MAX_DATA_PAYLOAD) (hgood h2 (by simp)) (hq hqne) hk1 hfr]
    have hcnt : numFrags q.length =
        1 + numFrags (q.drop LORA_MAX_DATA_PAYLOAD).length := by
      rw [List.length_drop]
      exact numFrags_succ q.length hqpos
    rw [ih (q.drop LORA_MAX_DATA_PAYLOAD) (k + 1)
      (done ++ q.take LORA_MAX_DATA_PAYLOAD)
      (by simpa using hlen)
      (fun h3 hm => hgood h3 (by simp [hm]))
      (by
        intro hne2
        have hql : LORA_MAX_DATA_PAYLOAD < q.length := by
          have := List.length_pos.2 hne2
          rw [List.length_drop] at this
          omega
        rw [List.length_append, List.length_take, hq hqne]
        have : min LORA_MAX_DATA_PAYLOAD q.length = LORA_MAX_DATA_PAYLOAD := by
          omega
        rw [this]
        ring)
      (by
        rw [List.length_drop]
        have := numFrags_succ q.length hqpos
        omega)]
    rw [Prod.mk.injEq]
    constructor
    · have hlist : done ++ q.take LORA_MAX_DATA_PAYLOAD ++
          q.drop LORA_MAX_DATA_PAYLOAD = done ++ q := by
        rw [List.append_assoc, List.take_append_drop]
      rw [hlist]
      have hnum : k + 1 + numFrags (q.drop LORA_MAX_DATA_PAYLOAD).length =
          k + numFrags q.length := by
        rw [List.length_drop] at *
        omega
      rw [hnum]
    · simp

/-- The fragment sizes for a 512-byte payload: {245, 245, 22}. -/
theorem fragments_512 (p : List Nat) (hp : p.length = 512) :
    numFrags p.length = 3 ∧ (fragments p).map List.length = [245, 245, 22] := by
  have hc : (245 : Nat) = LORA_MAX_DATA_PAYLOAD := by
    simp [LORA_MAX_DATA_PAYLOAD, LORA_MAX_PAYLOAD, LORA_HEADER_SIZE]
  constructor
  · rw [hp]
    rfl
  · have h1 : p ≠ [] := by
      intro hee
      subst hee
      simp at hp
    have hl1 : (p.drop LORA_MAX_DATA_PAYLOAD).length = 267 := by
      rw [List.length_drop, hp, ← hc]
    have h2 : p.drop LORA_MAX_DATA_PAYLOAD ≠ [] := by
      intro hee
      rw [hee] at hl1
      simp at hl1
    have hl2 : ((p.drop LORA_MAX_DATA_PAYLOAD).drop LORA_MAX_DATA_PAYLOAD).length
        = 22 := by
      rw [List.length_drop, hl1, ← hc]
    have h3 : (p.drop LORA_MAX_DATA_PAYLOAD).drop LORA_MAX_DATA_PAYLOAD ≠ [] := by
      intro hee
      rw [hee] at hl2
      simp at hl2
    have h4 : ((p.drop LORA_MAX_DATA_PAYLOAD).drop
        LORA_MAX_DATA_PAYLOAD).drop LORA_MAX_DATA_PAYLOAD = [] := by
      refine List.eq_nil_of_length_eq_zero ?_
      rw [List.length_drop, hl2, ← hc]
    rw [fragments_cons p h1, fragments_cons _ h2, fragments_cons _ h3, h4,
      fragments_nil]
    simp only [List.map_cons, List.map_nil, List.length_take, List.length_drop,
      ← hc, List.cons.injEq, and_true]
    omega

/-! ### Claim C1 — a complete uncorrupted transfer -/

/-- C1: from IDLE, processing one AUDIO_START announcing
`numFrags n = ceil(n/245)` fragments with a correct crc16, then the
fragments of the payload in order (each at most 245 bytes, full-sized
except the last), then one AUDIO_END carrying the fragment count and the
payload CRC32 — all frames addressed to this node — acknowledges every
frame with OK (the end frame included), hands exactly the original
payload bytes with the recorded codec, sample rate and duration to the
audio sink, and ends with the session state back at IDLE; for a 512-byte
payload the fragment count is 3 with sizes {245, 245, 22}. -/
theorem C1_full_transfer (p : List Nat) (h0 hE : LoRaHeader)
    (hs : List LoRaHeader) (cdc hz dur ts : Nat)
    (hbytes : ∀ b ∈ p, b < 256) (hplen : p.length ≤ MAX_AUDIO_BYTES)
    (hg0 : goodHeader h0 PKT_AUDIO_START) (hgE : goodHeader hE PKT_AUDIO_END)
    (hgs : ∀ h2 ∈ hs, goodHeader h2 PKT_AUDIO_DATA)
    (hcount : hs.length = numFrags p.length)
    (hcd : cdc < 256) (hhz : hz < 65536) (hdu : dur < 65536)
    (hts : ts < 4294967296) :
    runFrames initSession
        (mkStartFrame h0 (numFrags p.length) cdc hz dur ts
          :: (List.zipWith mkDataFrame hs (fragments p)
              ++ [mkEndFrame hE (numFrags p.length) (crc32 p)])) =
      ({ midSession (h0.session_id % 65536) (numFrags p.length) cdc hz dur ts
           (numFrags p.length) p with state := RxState.IDLE },
       RxOutput.ack h0.seq_num ACK_STATUS_OK
         :: ((hs.map fun h2 => RxOutput.ack h2.seq_num ACK_STATUS_OK)
             ++ [RxOutput.ack hE.seq_num ACK_STATUS_OK,
                 RxOutput.audio p cdc hz dur])) ∧
    (p.length = 512 → numFrags p.length = 3 ∧
       (fragments p).map List.length = [245, 245, 22]) := by
  refine ⟨?_, fragments_512 p⟩
  have hnf22 := numFrags_le_of_le p.length hplen
  have e0 := processFrame_mkStartFrame initSession h0 (numFrags p.length)
    cdc hz dur ts hg0 hnf22 hcd hhz hdu hts
  have e1 := runFrames_data hs p (h0.session_id % 65536) (numFrags p.length)
    cdc hz dur ts 0 []
    (by rw [hcount, length_fragments]) hgs (fun _ => by simp)
    (by simpa using hnf22)
  simp only [Nat.zero_add, List.nil_append] at e1
  have e2 := processFrame_mkEndFrame (h0.session_id % 65536) (numFrags p.length)
    cdc hz dur ts p hE hgE
    (by
      simp only [MAX_FRAGS] at hnf22
      omega)
  simp only [runFrames, runFrames_append, e0, e1, e2, List.append_nil]
  rfl

/-- Witness for C1: a 512-byte zero payload, session 7, codec 0 at
8000 Hz for 64 ms, carried by three fragments with sequence numbers 2-4
between a START (seq 1) and an END (seq 5). -/
theorem C1_full_transfer_witness :
    (∀ b ∈ List.replicate 512 (0 : Nat), b < 256) ∧
    (List.replicate 512 (0 : Nat)).length ≤ MAX_AUDIO_BYTES ∧
    goodHeader ⟨0x11, 1, 2, 1, 7, 1, 14, 0x75⟩ PKT_AUDIO_START ∧
    goodHeader ⟨0x13, 1, 2, 1, 7, 5, 14, 0x75⟩ PKT_AUDIO_END ∧
    (∀ h2 ∈ ([⟨0x12, 1, 2, 1, 7, 2, 14, 0x75⟩, ⟨0x12, 1, 2, 1, 7, 3, 14, 0x75⟩,
        ⟨0x12, 1, 2, 1, 7, 4, 14, 0x75⟩] : List LoRaHeader),
      goodHeader h2 PKT_AUDIO_DATA) ∧
    ([⟨0x12, 1, 2, 1, 7, 2, 14, 0x75⟩, ⟨0x12, 1, 2, 1, 7, 3, 14, 0x75⟩,
        ⟨0x12, 1, 2, 1, 7, 4, 14, 0x75⟩] : List LoRaHeader).length =
      numFrags (List.replicate 512 (0 : Nat)).length ∧
    runFrames initSession
        (mkStartFrame ⟨0x11, 1, 2, 1, 7, 1, 14, 0x75⟩ 3 0 8000 64 512
          :: (List.zipWith mkDataFrame
                [⟨0x12, 1, 2, 1, 7, 2, 14, 0x75⟩, ⟨0x12, 1, 2, 1, 7, 3, 14, 0x75⟩,
                 ⟨0x12, 1, 2, 1, 7, 4, 14, 0x75⟩]
                (fragments (List.replicate 512 0))
              ++ [mkEndFrame ⟨0x13, 1, 2, 1, 7, 5, 14, 0x75⟩ 3
                    (crc32 (List.replicate 512 0))])) =
      ({ midSession 7 3 0 8000 64 512 3 (List.replicate 512 0) with
           state := RxState.IDLE },
       [RxOutput.ack 1 ACK_STATUS_OK, RxOutput.ack 2 ACK_STATUS_OK,
        RxOutput.ack 3 ACK_STATUS_OK, RxOutput.ack 4 ACK_STATUS_OK,
        RxOutput.ack 5 ACK_STATUS_OK,
        RxOutput.audio (List.replicate 512 0) 0 8000 64]) ∧
    numFrags (List.replicate 512 (0 : Nat)).length = 3 ∧
    (fragments (List.replicate 512 (0 : Nat))).map List.length = [245, 245, 22] := by
  have H := C1_full_transfer (List.replicate 512 0)
    ⟨0x11, 1, 2, 1, 7, 1, 14, 0x75⟩ ⟨0x13, 1, 2, 1, 7, 5, 14, 0x75⟩
    [⟨0x12, 1, 2, 1, 7, 2, 14, 0x75⟩, ⟨0x12, 1, 2, 1, 7, 3, 14, 0x75⟩,
     ⟨0x12, 1, 2, 1, 7, 4, 14, 0x75⟩] 0 8000 64 512
    (fun b hb => by rw [List.eq_of_mem_replicate hb]; omega)
    (by decide) (by decide) (by decide) (by decide)
    (by decide) (by decide) (by decide) (by decide) (by decide)
  exact ⟨fun b hb => by rw [List.eq_of_mem_replicate hb]; omega,
    by decide, by decide, by decide, by decide, by decide,
    H.1, (H.2 (by decide)).1, (H.2 (by decide)).2⟩

end LoRa
